import Mathlib

/-!
Verification development for the HF_parser fund-dashboard repository.

The repository is a three-tier CRUD system: a MySQL schema (docs/DATABASE.md),
a FastAPI/SQLAlchemy backend documented in the API reference, and a React
frontend (pages/Search.tsx, pages/Compare.tsx, components/ColumnSelector.tsx,
components/StrategyPieChart.tsx, lib/columnConfig.ts, lib/api.ts).

Frontend components are embedded directly from their TypeScript sources.
The backend query layer (the FastAPI route handlers and SQLAlchemy queries)
is not part of the supplied source excerpt; where a property depends on it,
the corresponding definition is modelled from the specification and the API
reference, and is marked as such in its doc string.

Dates are encoded as natural numbers (e.g. days since an epoch); all numeric
performance metrics are rationals, `Option ℚ` where the column is nullable.
-/

namespace HFParser

/-- The full set of nullable performance-metric columns of the
`fund_performance` table, transcribed from the `CREATE TABLE fund_performance`
DDL in docs/DATABASE.md (27 numeric metric columns). -/
structure PerfMetrics where
  weekly_excess : Option ℚ := none
  weekly_return : Option ℚ := none
  monthly_excess : Option ℚ := none
  monthly_return : Option ℚ := none
  monthly_max_drawdown : Option ℚ := none
  quarterly_excess : Option ℚ := none
  quarterly_return : Option ℚ := none
  quarterly_max_drawdown : Option ℚ := none
  semi_annual_excess : Option ℚ := none
  semi_annual_return : Option ℚ := none
  semi_annual_max_drawdown : Option ℚ := none
  annual_excess : Option ℚ := none
  annual_return_ytd : Option ℚ := none
  annual_max_drawdown : Option ℚ := none
  ytd_excess : Option ℚ := none
  ytd_return : Option ℚ := none
  ytd_max_drawdown : Option ℚ := none
  annual_return : Option ℚ := none
  cumulative_return : Option ℚ := none
  max_drawdown : Option ℚ := none
  annual_volatility : Option ℚ := none
  annual_sharpe : Option ℚ := none
  annual_calmar : Option ℚ := none
  annual_sortino : Option ℚ := none
  inception_sharpe : Option ℚ := none
  inception_calmar : Option ℚ := none
  inception_sortino : Option ℚ := none
  deriving DecidableEq, Repr

/-- One row of the `fund_performance` table: identity columns plus the
metric columns.  The surrogate `id` column is omitted because it plays no
role in any property considered here. -/
structure PerfRow where
  fund_code : String
  report_date : Nat
  metrics : PerfMetrics := {}
  deriving DecidableEq, Repr

/-- A row of the `funds` table (docs/DATABASE.md): code is the primary key,
manager and strategy references are nullable foreign keys. -/
structure FundRec where
  fund_code : String
  fund_name : String
  manager_id : Option Nat := none
  strategy_id : Option Nat := none
  launch_date : Option Nat := none
  deriving DecidableEq, Repr

/-- A row of the `managers` table (only the columns the read layer uses). -/
structure ManagerRec where
  manager_id : Nat
  manager_name : String
  deriving DecidableEq, Repr

/-- A row of the `strategies` table (only the columns the read layer uses;
`level3_category` is the strategy display name). -/
structure StrategyRec where
  strategy_id : Nat
  level3_category : String
  deriving DecidableEq, Repr

/-- The relational store as seen by the read-only browsing layer. -/
structure Database where
  managers : List ManagerRec := []
  strategies : List StrategyRec := []
  funds : List FundRec := []
  performances : List PerfRow := []
  deriving DecidableEq, Repr

/-- Errors surfaced by the store on writes. -/
inductive StoreError where
  | duplicateKey
  deriving DecidableEq, Repr

/-- Modelled from the spec: the ingestion code that inserts
`fund_performance` rows is outside the supplied source excerpt; the store
behaviour is fixed by the DDL `UNIQUE KEY uk_fund_date (fund_code,
report_date)` in docs/DATABASE.md — at most one performance snapshot per
fund per reporting period, a second row with the same pair is rejected. -/
def insertPerformance (rows : List PerfRow) (r : PerfRow) :
    Except StoreError (List PerfRow) :=
  if rows.any (fun x => x.fund_code == r.fund_code && x.report_date == r.report_date) then
    .error .duplicateKey
  else
    .ok (rows ++ [r])

/-! ### Frontend column configuration (lib/columnConfig.ts) -/

/-- Structure `ColumnConfig` from lib/columnConfig.ts. -/
structure ColumnConfig where
  key : String
  label : String
  category : String
  sortable : Bool
  defaultVisible : Bool
  deriving DecidableEq, Repr

/-- Constant `PERFORMANCE_COLUMNS` from lib/columnConfig.ts, transcribed entry by
entry. -/
def PERFORMANCE_COLUMNS : List ColumnConfig := [
  ⟨"fund_name", "产品名称", "basic", false, true⟩,
  ⟨"manager_name", "管理人", "basic", false, true⟩,
  ⟨"strategy_name", "策略", "basic", false, true⟩,
  ⟨"weekly_return", "周收益", "short_term", true, false⟩,
  ⟨"weekly_excess", "周超额", "short_term", true, false⟩,
  ⟨"monthly_return", "月收益", "short_term", true, false⟩,
  ⟨"monthly_excess", "月超额", "short_term", true, true⟩,
  ⟨"monthly_max_drawdown", "月最大回撤", "short_term", true, false⟩,
  ⟨"quarterly_return", "季收益", "medium_term", true, true⟩,
  ⟨"quarterly_max_drawdown", "季最大回撤", "medium_term", true, false⟩,
  ⟨"semi_annual_return", "半年收益(年化)", "medium_term", true, false⟩,
  ⟨"semi_annual_excess", "半年超额(年化)", "medium_term", true, false⟩,
  ⟨"semi_annual_max_drawdown", "半年最大回撤", "medium_term", true, false⟩,
  ⟨"annual_return_ytd", "年收益(年化)", "annual", true, false⟩,
  ⟨"annual_excess", "年超额(年化)", "annual", true, true⟩,
  ⟨"annual_max_drawdown", "年最大回撤", "annual", true, false⟩,
  ⟨"ytd_return", "今年以来收益", "annual", true, false⟩,
  ⟨"ytd_excess", "今年以来超额", "annual", true, false⟩,
  ⟨"ytd_max_drawdown", "今年以来回撤", "annual", true, false⟩,
  ⟨"annual_return", "年化收益", "inception", true, true⟩,
  ⟨"cumulative_return", "累计收益", "inception", true, true⟩,
  ⟨"max_drawdown", "最大回撤", "inception", true, true⟩,
  ⟨"annual_volatility", "年化波动率", "inception", true, false⟩,
  ⟨"annual_sharpe", "夏普比率", "risk_adjusted", true, true⟩,
  ⟨"annual_calmar", "卡玛比率", "risk_adjusted", true, false⟩,
  ⟨"annual_sortino", "索提诺比率", "risk_adjusted", true, false⟩,
  ⟨"inception_sharpe", "成立以来夏普", "risk_adjusted", true, false⟩,
  ⟨"inception_calmar", "成立以来卡玛", "risk_adjusted", true, false⟩,
  ⟨"inception_sortino", "成立以来索提诺", "risk_adjusted", true, false⟩]

/-- Function `getDefaultVisibleColumns` from lib/columnConfig.ts. -/
def getDefaultVisibleColumns : List String :=
  (PERFORMANCE_COLUMNS.filter (fun col => col.defaultVisible)).map (fun col => col.key)

/-! ### ColumnSelector operations (components/ColumnSelector.tsx) -/

/-- The guard `column?.category === 'basic'` of toggleColumn: look the key
up in the column configuration and test whether the found column is basic;
an unknown key is not basic. -/
def isBasicColumn (columnKey : String) : Bool :=
  match PERFORMANCE_COLUMNS.find? (fun col => col.key == columnKey) with
  | some col => col.category == "basic"
  | none => false

/-- Operation `toggleColumn` from ColumnSelector.tsx: a column whose configured
category is `basic` cannot be toggled; otherwise the key is removed from the
visible set if present and appended if absent. -/
def toggleColumn (visibleColumns : List String) (columnKey : String) : List String :=
  if isBasicColumn columnKey then
    visibleColumns
  else if visibleColumns.contains columnKey then
    visibleColumns.filter (fun key => key != columnKey)
  else
    visibleColumns ++ [columnKey]

/-- Operation `selectAll` from ColumnSelector.tsx. -/
def selectAll : List String :=
  PERFORMANCE_COLUMNS.map (fun col => col.key)

/-- Operation `resetToDefault` from ColumnSelector.tsx. -/
def resetToDefault : List String :=
  getDefaultVisibleColumns

/-- The visible-column states reachable from the default set through the
three ColumnSelector operations.  Search.tsx initialises the state with
`getDefaultVisibleColumns()` when nothing is stored. -/
inductive ColumnsState : List String → Prop where
  | init : ColumnsState getDefaultVisibleColumns
  | toggle (k : String) {s : List String} : ColumnsState s → ColumnsState (toggleColumn s k)
  | selAll {s : List String} : ColumnsState s → ColumnsState selectAll
  | reset {s : List String} : ColumnsState s → ColumnsState resetToDefault

/-! ### Strategy pie chart (components/StrategyPieChart.tsx) -/

/-- Type `StrategyDistribution` from lib/api.ts: a strategy name and its fund
count. -/
structure StrategyDistribution where
  name : String
  value : Nat
  deriving DecidableEq, Repr

/-- One entry of the ECharts pie `series[0].data` array. -/
structure PieDatum where
  value : Nat
  name : String
  deriving DecidableEq, Repr

/-- The label shortening applied per item in StrategyPieChart.tsx:
names longer than 15 characters are cut to 15 characters plus an ellipsis. -/
def pieLabel (s : String) : String :=
  if 15 < s.length then s.take 15 ++ "..." else s

/-- The `series[0].data` computation of StrategyPieChart.tsx:
`data.slice(0, 10).map(item => ...)`. -/
def strategyPieData (data : List StrategyDistribution) : List PieDatum :=
  (data.take 10).map (fun item => ⟨item.value, pieLabel item.name⟩)

/-! ### Frontend data types (lib/api.ts) -/

/-- Type `PerformanceSnapshot` from lib/api.ts: the metric fields the frontend
consumes, all nullable. -/
structure PerformanceSnapshot where
  report_date : Nat
  weekly_return : Option ℚ := none
  monthly_return : Option ℚ := none
  quarterly_return : Option ℚ := none
  annual_return : Option ℚ := none
  cumulative_return : Option ℚ := none
  max_drawdown : Option ℚ := none
  annual_sharpe : Option ℚ := none
  annual_volatility : Option ℚ := none
  deriving DecidableEq, Repr

/-- Type `Fund` from lib/api.ts. -/
structure Fund where
  fund_code : String
  fund_name : String
  manager_id : Option Nat := none
  manager_name : Option String := none
  strategy_id : Option Nat := none
  strategy_name : Option String := none
  launch_date : Option Nat := none
  latest_performance : Option PerformanceSnapshot := none
  deriving DecidableEq, Repr

/-- One fund entry of the `/api/analytics/compare` response as consumed by
Compare.tsx: identity fields, the in-range performance series and the most
recent snapshot (`latest`), which is null when the series is empty. -/
structure CompareViewFund where
  fund_code : String
  fund_name : String
  manager_name : Option String := none
  strategy_name : Option String := none
  performances : List PerformanceSnapshot := []
  latest : Option PerformanceSnapshot := none
  deriving DecidableEq, Repr

/-! ### Compare page state (pages/Compare.tsx) -/

/-- Operation `addFund` from Compare.tsx: the candidate is appended only when fewer
than 5 funds are selected and no selected fund already has its code. -/
def addFund (selectedFunds : List Fund) (fund : Fund) : List Fund :=
  if selectedFunds.length < 5 &&
      (selectedFunds.find? (fun f => f.fund_code == fund.fund_code)).isNone then
    selectedFunds ++ [fund]
  else
    selectedFunds

/-- Operation `removeFund` from Compare.tsx. -/
def removeFund (selectedFunds : List Fund) (fundCode : String) : List Fund :=
  selectedFunds.filter (fun f => f.fund_code != fundCode)

/-- The `enabled` condition of the compare query in Compare.tsx:
`selectedFunds.length >= 2`. -/
def compareQueryEnabled (selectedFunds : List Fund) : Bool :=
  2 ≤ selectedFunds.length

/-- The comparison request issued by Compare.tsx: the selected funds' codes,
sent only when the query is enabled. -/
def compareRequestCodes (selectedFunds : List Fund) : Option (List String) :=
  if compareQueryEnabled selectedFunds then
    some (selectedFunds.map (fun f => f.fund_code))
  else
    none

/-- The selection states reachable in Compare.tsx: the page starts with an
empty selection and mutates it only through `addFund` and `removeFund`. -/
inductive CompareState : List Fund → Prop where
  | init : CompareState []
  | add (f : Fund) {s : List Fund} : CompareState s → CompareState (addFund s f)
  | remove (c : String) {s : List Fund} : CompareState s → CompareState (removeFund s c)

/-! ### Radar chart projection (pages/Compare.tsx, getRadarOption) -/

/-- One radar indicator: axis label and fixed axis maximum. -/
structure RadarIndicator where
  name : String
  axisMax : ℚ
  deriving DecidableEq, Repr

/-- One radar series entry: truncated fund name and the five plotted
values. -/
structure RadarSeriesEntry where
  name : String
  values : List ℚ
  deriving DecidableEq, Repr

/-- The parts of the ECharts option built by `getRadarOption` that carry
data (tooltip and layout styling omitted). -/
structure RadarOption where
  legend : List String
  indicators : List RadarIndicator
  series : List RadarSeriesEntry
  deriving DecidableEq, Repr

/-- The JS pattern `Math.abs(x || 0)` applied to a nullable metric reached through the
nullable `latest` snapshot, as in getRadarOption. -/
def radarMetric (latest : Option PerformanceSnapshot)
    (f : PerformanceSnapshot → Option ℚ) : ℚ :=
  |((latest.bind f).getD 0)|

/-- The five plotted values of one fund in getRadarOption, in source
order. -/
def radarValues (fund : CompareViewFund) : List ℚ :=
  [radarMetric fund.latest (fun p => p.annual_return),
   radarMetric fund.latest (fun p => p.annual_sharpe),
   radarMetric fund.latest (fun p => p.cumulative_return),
   radarMetric fund.latest (fun p => p.max_drawdown),
   radarMetric fund.latest (fun p => p.annual_volatility)]

/-- The fixed indicator list of getRadarOption. -/
def radarIndicators : List RadarIndicator :=
  [⟨"年化收益", 1⟩, ⟨"夏普比率", 5⟩, ⟨"累计收益", 2⟩, ⟨"最大回撤", 1/2⟩, ⟨"波动率", 1/2⟩]

/-- Function `getRadarOption` from Compare.tsx: an empty option when there are no
funds, otherwise the fixed indicators plus one single-point series per
fund. -/
def getRadarOption (funds : List CompareViewFund) : Option RadarOption :=
  if funds.isEmpty then
    none
  else
    some
      { legend := funds.map (fun f => f.fund_name.take 10)
        indicators := radarIndicators
        series := funds.map (fun f => ⟨f.fund_name.take 10, radarValues f⟩) }

/-! ### Backend query layer

The FastAPI route handlers and SQLAlchemy queries are not part of the
supplied source excerpt; the definitions below are modelled from the
specification (section 4.1/4.2) and the API reference (`GET /api/funds`,
`POST /api/analytics/compare`). -/

/-- Error taxonomy of the API layer (spec section 7): validation errors and
not-found. -/
inductive ApiError where
  | validation (msg : String)
  | notFound (msg : String)
  deriving DecidableEq, Repr

/-- The sort-field allow-list of `GET /api/funds`, transcribed from the
"可用排序字段" list of the API reference. -/
def ALLOWED_SORT_FIELDS : List String :=
  ["weekly_return", "weekly_excess",
   "monthly_return", "monthly_excess", "monthly_max_drawdown",
   "quarterly_return", "quarterly_max_drawdown",
   "semi_annual_return", "semi_annual_excess",
   "annual_return", "annual_return_ytd", "annual_excess",
   "cumulative_return", "max_drawdown", "annual_volatility",
   "annual_sharpe", "annual_calmar", "annual_sortino",
   "inception_sharpe", "inception_calmar", "inception_sortino"]

/-- The inputs of the funds search operation after boundary defaulting
(spec section 4.1, API reference `GET /api/funds`). -/
structure FundsQuery where
  keyword : Option String := none
  manager_id : Option Nat := none
  strategy_id : Option Nat := none
  min_annual_return : Option ℚ := none
  max_annual_return : Option ℚ := none
  max_drawdown : Option ℚ := none
  min_sharpe : Option ℚ := none
  sort_by : String := "annual_return"
  order : String := "desc"
  page : Nat := 1
  page_size : Nat := 20
  report_date : Option Nat := none
  deriving DecidableEq, Repr

/-- One item of the funds search response: a fund record joined with its
single performance snapshot for the requested date. -/
structure FundItem where
  fund_code : String
  fund_name : String
  manager_id : Option Nat := none
  manager_name : Option String := none
  strategy_id : Option Nat := none
  strategy_name : Option String := none
  launch_date : Option Nat := none
  latest_performance : PerfMetrics := {}
  deriving DecidableEq, Repr

/-- The paginated-list envelope of the API layer:
items, total, page, page_size, total_pages. -/
structure Paged (α : Type) where
  items : List α
  total : Nat
  page : Nat
  page_size : Nat
  total_pages : Nat
  deriving DecidableEq, Repr

/-- The metric column named by an allow-listed sort field, read off a
metrics row.  Unknown names yield `none`. -/
def metricValue (field : String) (m : PerfMetrics) : Option ℚ :=
  match field with
  | "weekly_return" => m.weekly_return
  | "weekly_excess" => m.weekly_excess
  | "monthly_return" => m.monthly_return
  | "monthly_excess" => m.monthly_excess
  | "monthly_max_drawdown" => m.monthly_max_drawdown
  | "quarterly_return" => m.quarterly_return
  | "quarterly_max_drawdown" => m.quarterly_max_drawdown
  | "semi_annual_return" => m.semi_annual_return
  | "semi_annual_excess" => m.semi_annual_excess
  | "annual_return" => m.annual_return
  | "annual_return_ytd" => m.annual_return_ytd
  | "annual_excess" => m.annual_excess
  | "cumulative_return" => m.cumulative_return
  | "max_drawdown" => m.max_drawdown
  | "annual_volatility" => m.annual_volatility
  | "annual_sharpe" => m.annual_sharpe
  | "annual_calmar" => m.annual_calmar
  | "annual_sortino" => m.annual_sortino
  | "inception_sharpe" => m.inception_sharpe
  | "inception_calmar" => m.inception_calmar
  | "inception_sortino" => m.inception_sortino
  | _ => none

/-- The sort key of an item under a sort field; SQL NULLs order below every
value (MySQL places NULLs first in ascending order). -/
def sortKey (field : String) (it : FundItem) : WithBot ℚ :=
  match metricValue field it.latest_performance with
  | none => ⊥
  | some q => (q : WithBot ℚ)

/-- Descending comparison between two items under a sort field. -/
def descRel (field : String) (a b : FundItem) : Prop :=
  sortKey field b ≤ sortKey field a

/-- Ascending comparison between two items under a sort field. -/
def ascRel (field : String) (a b : FundItem) : Prop :=
  sortKey field a ≤ sortKey field b

instance descRelDecidable (field : String) : DecidableRel (descRel field) :=
  fun a b => inferInstanceAs (Decidable (sortKey field b ≤ sortKey field a))

instance ascRelDecidable (field : String) : DecidableRel (ascRel field) :=
  fun a b => inferInstanceAs (Decidable (sortKey field a ≤ sortKey field b))

instance descRelTotal (field : String) : IsTotal FundItem (descRel field) :=
  ⟨fun a b => le_total (sortKey field b) (sortKey field a)⟩

instance ascRelTotal (field : String) : IsTotal FundItem (ascRel field) :=
  ⟨fun a b => le_total (sortKey field a) (sortKey field b)⟩

instance descRelTrans (field : String) : IsTrans FundItem (descRel field) :=
  ⟨fun _ _ _ h1 h2 => le_trans h2 h1⟩

instance ascRelTrans (field : String) : IsTrans FundItem (ascRel field) :=
  ⟨fun _ _ _ h1 h2 => le_trans h1 h2⟩

/-- Modelled from the spec: the ORDER BY step of the funds search query —
a stable sort of the filtered rows by the allow-listed sort column, in the
requested direction. -/
def sortRows (field : String) (order : String) (rows : List FundItem) : List FundItem :=
  if order == "desc" then
    List.insertionSort (descRel field) rows
  else
    List.insertionSort (ascRel field) rows

/-- Substring match, as SQL `LIKE concat(percent, kw, percent)`. -/
def containsKeyword (kw s : String) : Bool :=
  decide (kw.toList <:+: s.toList)

/-- The keyword filter of the funds search: the keyword is matched against
fund name, manager name and fund code (spec section 4.1). -/
def keywordMatches (kw : String) (it : FundItem) : Bool :=
  containsKeyword kw it.fund_name ||
    (match it.manager_name with
     | some m => containsKeyword kw m
     | none => false) ||
    containsKeyword kw it.fund_code

/-- Modelled from the spec: the WHERE clause of the funds search — optional
keyword, manager, strategy and numeric-threshold filters; a row with a NULL
metric fails a threshold comparison, as in SQL. -/
def matchesFilters (q : FundsQuery) (it : FundItem) : Bool :=
  (match q.keyword with
   | some kw => keywordMatches kw it
   | none => true) &&
  (match q.manager_id with
   | some i => it.manager_id == some i
   | none => true) &&
  (match q.strategy_id with
   | some i => it.strategy_id == some i
   | none => true) &&
  (match q.min_annual_return with
   | some t => (it.latest_performance.annual_return.map (fun v => decide (t ≤ v))).getD false
   | none => true) &&
  (match q.max_annual_return with
   | some t => (it.latest_performance.annual_return.map (fun v => decide (v ≤ t))).getD false
   | none => true) &&
  (match q.max_drawdown with
   | some t => (it.latest_performance.max_drawdown.map (fun v => decide (t ≤ v))).getD false
   | none => true) &&
  (match q.min_sharpe with
   | some t => (it.latest_performance.annual_sharpe.map (fun v => decide (t ≤ v))).getD false
   | none => true)

/-- The most recent report date present in the performance store, 0 when the
store is empty (no row carries date 0, so an empty store yields no rows). -/
def latestReportDate (db : Database) : Nat :=
  (db.performances.map (fun p => p.report_date)).foldr Nat.max 0

/-- Modelled from the spec: the join of a date's performance rows with their
fund, manager and strategy records, producing the search items. -/
def snapshotRows (db : Database) (d : Nat) : List FundItem :=
  (db.performances.filter (fun p => p.report_date == d)).filterMap (fun p =>
    (db.funds.find? (fun f => f.fund_code == p.fund_code)).map (fun f =>
      { fund_code := f.fund_code
        fund_name := f.fund_name
        manager_id := f.manager_id
        manager_name := f.manager_id.bind (fun i =>
          (db.managers.find? (fun m => m.manager_id == i)).map (fun m => m.manager_name))
        strategy_id := f.strategy_id
        strategy_name := f.strategy_id.bind (fun i =>
          (db.strategies.find? (fun s => s.strategy_id == i)).map (fun s => s.level3_category))
        launch_date := f.launch_date
        latest_performance := p.metrics }))

/-- Validation message for a sort field outside the allow-list. -/
def unknownSortFieldMessage : String :=
  "invalid sort field"

/-- Modelled from the spec: the funds search operation (`GET /api/funds`).
Validation first — unknown sort fields fail rather than falling back, the
order is asc/desc, the page number is at least 1 and the page size is
bounded by 1..100 — then filter, sort, count and paginate. -/
def searchFunds (db : Database) (q : FundsQuery) : Except ApiError (Paged FundItem) :=
  if q.sort_by ∈ ALLOWED_SORT_FIELDS then
    if q.order = "asc" ∨ q.order = "desc" then
      if 1 ≤ q.page then
        if 1 ≤ q.page_size ∧ q.page_size ≤ 100 then
          let d := q.report_date.getD (latestReportDate db)
          let rows := (snapshotRows db d).filter (matchesFilters q)
          let sorted := sortRows q.sort_by q.order rows
          let total := rows.length
          .ok
            { items := (sorted.drop ((q.page - 1) * q.page_size)).take q.page_size
              total := total
              page := q.page
              page_size := q.page_size
              total_pages := (total + q.page_size - 1) / q.page_size }
        else .error (.validation "page_size must be between 1 and 100")
      else .error (.validation "page must be at least 1")
    else .error (.validation "order must be asc or desc")
  else .error (.validation unknownSortFieldMessage)

/-! ### Boundary layer (spec section 4.2) -/

/-- The raw HTTP query parameters of `GET /api/funds`, all optional. -/
structure RawFundsParams where
  keyword : Option String := none
  manager_id : Option Nat := none
  strategy_id : Option Nat := none
  min_annual_return : Option ℚ := none
  max_annual_return : Option ℚ := none
  max_drawdown : Option ℚ := none
  min_sharpe : Option ℚ := none
  sort_by : Option String := none
  order : Option String := none
  page : Option Nat := none
  page_size : Option Nat := none
  report_date : Option Nat := none
  deriving DecidableEq, Repr

/-- Modelled from the spec: the boundary coercion of `GET /api/funds` —
HTTP query parameters are mapped onto the query layer's inputs with the
documented defaults (page 1, page_size 20, sort_by annual_return, order
desc) applied when a parameter is absent. -/
def coerceFundsParams (raw : RawFundsParams) : FundsQuery :=
  { keyword := raw.keyword
    manager_id := raw.manager_id
    strategy_id := raw.strategy_id
    min_annual_return := raw.min_annual_return
    max_annual_return := raw.max_annual_return
    max_drawdown := raw.max_drawdown
    min_sharpe := raw.min_sharpe
    sort_by := raw.sort_by.getD "annual_return"
    order := raw.order.getD "desc"
    page := raw.page.getD 1
    page_size := raw.page_size.getD 20
    report_date := raw.report_date }

/-- A JSON value, for stating the shape of serialized responses. -/
inductive Json where
  | null : Json
  | str : String → Json
  | num : ℚ → Json
  | arr : List Json → Json
  | obj : List (String × Json) → Json

/-- The keys of a JSON object, in order; empty for non-objects. -/
def Json.objKeys : Json → List String
  | .obj fields => fields.map (fun f => f.1)
  | _ => []

/-- Modelled from the spec: the serialization of a paginated list — a JSON
object with exactly the stable envelope keys items, total, page, page_size
and total_pages, the items rendered by the given item serializer. -/
def serializePaged {α : Type} (serializeItem : α → Json) (e : Paged α) : Json :=
  .obj
    [("items", .arr (e.items.map serializeItem)),
     ("total", .num e.total),
     ("page", .num e.page),
     ("page_size", .num e.page_size),
     ("total_pages", .num e.total_pages)]

/-- The full boundary pipeline of `GET /api/funds`: coerce raw parameters,
run the query layer, serialize the page. -/
def handleGetFunds (serializeItem : FundItem → Json) (db : Database)
    (raw : RawFundsParams) : Except ApiError Json :=
  (searchFunds db (coerceFundsParams raw)).map (serializePaged serializeItem)

/-! ### Comparison operation (`POST /api/analytics/compare`) -/

/-- The body of `POST /api/analytics/compare`. -/
structure CompareRequest where
  fund_codes : List String
  start_date : Option Nat := none
  end_date : Option Nat := none
  deriving DecidableEq, Repr

/-- One fund entry of the comparison response. -/
structure CompareFundEntry where
  fund_code : String
  fund_name : String
  manager_name : Option String := none
  strategy_name : Option String := none
  performances : List PerfRow := []
  latest : Option PerfRow := none
  deriving DecidableEq, Repr

/-- The comparison response: one entry per requested fund code plus the
union of report dates in range. -/
structure CompareResponse where
  funds : List CompareFundEntry
  date_range : List Nat
  deriving DecidableEq, Repr

/-- Whether a performance row lies in the optional date range of a
comparison request. -/
def inRange (req : CompareRequest) (p : PerfRow) : Bool :=
  (match req.start_date with
   | some d => decide (d ≤ p.report_date)
   | none => true) &&
  (match req.end_date with
   | some d => decide (p.report_date ≤ d)
   | none => true)

instance dateLeDecidable : DecidableRel (fun a b : PerfRow => a.report_date ≤ b.report_date) :=
  fun a b => inferInstanceAs (Decidable (a.report_date ≤ b.report_date))

instance dateLeTotal : IsTotal PerfRow (fun a b => a.report_date ≤ b.report_date) :=
  ⟨fun a b => Nat.le_total a.report_date b.report_date⟩

instance dateLeTrans : IsTrans PerfRow (fun a b => a.report_date ≤ b.report_date) :=
  ⟨fun _ _ _ h1 h2 => Nat.le_trans h1 h2⟩

/-- One fund's in-range performance series, in report-date order. -/
def fundSeries (db : Database) (req : CompareRequest) (code : String) : List PerfRow :=
  List.insertionSort (fun a b => a.report_date ≤ b.report_date)
    (db.performances.filter (fun p => p.fund_code == code && inRange req p))

/-- Modelled from the spec: one entry of the comparison result — the fund's
identity fields, its in-range series, and `latest` as the most recent
in-range snapshot (null when the series is empty).  A fund with no rows in
range still yields an entry, with an empty series. -/
def mkCompareEntry (db : Database) (req : CompareRequest) (code : String) : CompareFundEntry :=
  let series := fundSeries db req code
  match db.funds.find? (fun f => f.fund_code == code) with
  | some f =>
      { fund_code := code
        fund_name := f.fund_name
        manager_name := f.manager_id.bind (fun i =>
          (db.managers.find? (fun m => m.manager_id == i)).map (fun m => m.manager_name))
        strategy_name := f.strategy_id.bind (fun i =>
          (db.strategies.find? (fun s => s.strategy_id == i)).map (fun s => s.level3_category))
        performances := series
        latest := series.getLast? }
  | none =>
      { fund_code := code
        fund_name := ""
        performances := series
        latest := series.getLast? }

/-- Validation message for a comparison with fewer than 2 or more than 5
codes. -/
def compareCountMessage : String :=
  "fund_codes must contain between 2 and 5 codes"

/-- Modelled from the spec: the comparison operation
(`POST /api/analytics/compare`) — a code list of fewer than 2 or more than 5
entries is a validation error; an unknown code is a not-found error;
otherwise one entry per requested code, in request order. -/
def analyticsCompare (db : Database) (req : CompareRequest) : Except ApiError CompareResponse :=
  if req.fund_codes.length < 2 ∨ 5 < req.fund_codes.length then
    .error (.validation compareCountMessage)
  else if req.fund_codes.all (fun c => (db.funds.find? (fun f => f.fund_code == c)).isSome) then
    .ok
      { funds := req.fund_codes.map (mkCompareEntry db req)
        date_range :=
          (List.insertionSort (fun a b : Nat => a ≤ b)
            ((db.performances.filter (fun p =>
              p.fund_code ∈ req.fund_codes && inRange req p)).map
                (fun p => p.report_date))).dedup }
  else
    .error (.notFound "fund not found")

/-! ### Concrete evaluation fixtures -/

/-- A one-fund, one-snapshot store for concrete evaluation. -/
def dbW : Database :=
  { funds := [{ fund_code := "HF000001", fund_name := "示例基金一号" }]
    performances := [{ fund_code := "HF000001", report_date := 100 }] }

/-- The search item produced for the single fund of `dbW`. -/
def itemW : FundItem :=
  { fund_code := "HF000001", fund_name := "示例基金一号" }

/-- The page `searchFunds` returns for `dbW` under default parameters. -/
def pagedW : Paged FundItem :=
  { items := [itemW], total := 1, page := 1, page_size := 20, total_pages := 1 }

/-- A query whose sort field is outside the allow-list. -/
def qBadSort : FundsQuery :=
  { sort_by := "launch_date" }

/-- A two-fund store where only the first fund has a performance row. -/
def dbC : Database :=
  { funds := [{ fund_code := "HF000001", fund_name := "甲" },
              { fund_code := "HF000002", fund_name := "乙" }]
    performances := [{ fund_code := "HF000001", report_date := 100 }] }

/-- A comparison request with a single code. -/
def reqOne : CompareRequest :=
  { fund_codes := ["HF000001"] }

/-- A comparison request with two valid codes. -/
def reqTwo : CompareRequest :=
  { fund_codes := ["HF000001", "HF000002"] }

/-- A store state holding one performance row. -/
def rowsW : List PerfRow :=
  [{ fund_code := "HF000001", report_date := 100 }]

/-- A second row with the same (fund_code, report_date) pair as the row of
`rowsW` but different metric values. -/
def rowDup : PerfRow :=
  { fund_code := "HF000001", report_date := 100
    metrics := { annual_return := some 3 } }

/-- A latest snapshot with one positive metric, one negative metric and the
rest null. -/
def snapW : PerformanceSnapshot :=
  { report_date := 100, annual_return := some 2, max_drawdown := some (-3) }

/-- A one-fund comparison view. -/
def radarFundsW : List CompareViewFund :=
  [{ fund_code := "HF000001", fund_name := "示例", latest := some snapW }]

/-- The radar option `getRadarOption` builds for `radarFundsW`. -/
def radarOptW : RadarOption :=
  { legend := ["示例"]
    indicators := radarIndicators
    series := [⟨"示例", [2, 0, 0, 3, 0]⟩] }

/-- A minimal item serializer, for stating envelope-shape conclusions at a
concrete type. -/
def serStub : FundItem → Json :=
  fun it => Json.str it.fund_code

/-- Two items with distinct annual returns, unsorted. -/
def rowsPair : List FundItem :=
  [{ fund_code := "HF000002", fund_name := "乙"
     latest_performance := { annual_return := some 1 } },
   { fund_code := "HF000001", fund_name := "甲"
     latest_performance := { annual_return := some 3 } }]

/-- Two funds for the compare page. -/
def fundA : Fund :=
  { fund_code := "HF000001", fund_name := "甲" }

/-- Second fund for the compare page. -/
def fundB : Fund :=
  { fund_code := "HF000002", fund_name := "乙" }

/-- The selection reached by adding `fundA` then `fundB` to an empty
selection. -/
def selW : List Fund :=
  addFund (addFund [] fundA) fundB

/-! ## Helper lemmas -/

/-- The integer formula `(t + p - 1) / p` computes the rational ceiling of
`t / p`. -/
theorem add_pred_div_eq_ceil (t p : ℕ) (hp : 0 < p) :
    (t + p - 1) / p = ⌈(t : ℚ) / (p : ℚ)⌉₊ := by
  have hp' : (0 : ℚ) < (p : ℚ) := by exact_mod_cast hp
  have key : ∀ n : ℕ, (t + p - 1) / p ≤ n ↔ ⌈(t : ℚ) / (p : ℚ)⌉₊ ≤ n := by
    intro n
    rw [Nat.div_le_iff_le_mul_add_pred hp, Nat.ceil_le, div_le_iff₀ hp']
    constructor
    · intro hle
      have ht : t ≤ p * n := by omega
      have hcast : (t : ℚ) ≤ ((p * n : ℕ) : ℚ) := by exact_mod_cast ht
      push_cast at hcast
      linarith
    · intro hle
      have hcast : (t : ℚ) ≤ ((p * n : ℕ) : ℚ) := by push_cast; linarith
      have ht : t ≤ p * n := by exact_mod_cast hcast
      omega
  exact le_antisymm ((key _).2 le_rfl) ((key _).1 le_rfl)

/-- Every comparison entry carries the requested code. -/
theorem mkCompareEntry_code (db : Database) (req : CompareRequest) (c : String) :
    (mkCompareEntry db req c).fund_code = c := by
  unfold mkCompareEntry
  rcases hf : db.funds.find? (fun f => f.fund_code == c) with _ | f <;> simp [hf]

/-- A comparison entry has a non-null latest exactly when its series is
nonempty. -/
theorem mkCompareEntry_latest_iff (db : Database) (req : CompareRequest) (c : String) :
    ((mkCompareEntry db req c).latest.isSome ↔ (mkCompareEntry db req c).performances ≠ []) := by
  unfold mkCompareEntry
  rcases hf : db.funds.find? (fun f => f.fund_code == c) with _ | f <;>
    simp [hf, List.getLast?_isSome]

/-! ## C4 — (fund_code, report_date) uniqueness of the performance store -/

/-- C4: the performance store keeps at most one snapshot per
(fund, report_date): for every store state, inserting a row whose
(fund_code, report_date) pair already occurs in the store is rejected. -/
theorem insertPerformance_rejects_duplicate (rows : List PerfRow) (r existing : PerfRow)
    (hmem : existing ∈ rows) (hc : existing.fund_code = r.fund_code)
    (hd : existing.report_date = r.report_date) :
    insertPerformance rows r = .error .duplicateKey := by
  unfold insertPerformance
  have hany : rows.any
      (fun x => x.fund_code == r.fund_code && x.report_date == r.report_date) = true :=
    List.any_eq_true.2 ⟨existing, hmem, by simp [hc, hd]⟩
  simp [hany]

/-- Witness for C4: a concrete store with one row rejects a second row with
the same pair and different metric values. -/
theorem insertPerformance_rejects_duplicate_witness :
    insertPerformance rowsW rowDup = .error .duplicateKey :=
  insertPerformance_rejects_duplicate rowsW rowDup
    { fund_code := "HF000001", report_date := 100 }
    (by decide) (by decide) (by decide)

/-! ## C7 — strategy pie chart truncates to the first 10 entries -/

/-- C7: the client-side strategy-distribution chart renders at most the
first 10 name/count pairs of the distribution: the pie series has at most 10
entries, and its counts are exactly the first 10 counts of the input. -/
theorem strategyPie_top_ten (data : List StrategyDistribution) :
    (strategyPieData data).length ≤ 10 ∧
      (strategyPieData data).map (fun d => d.value) =
        (data.map (fun d => d.value)).take 10 := by
  constructor
  · calc (strategyPieData data).length = (data.take 10).length := by
          simp [strategyPieData]
    _ ≤ 10 := by simp [List.length_take]
  · simp [strategyPieData, List.map_take, List.map_map, Function.comp_def]

/-! ## C5 — the radar projection -/

/-- C5: for every nonempty comparison result, the radar option plots per
fund exactly the absolute values of annual return, Sharpe, cumulative
return, max drawdown and volatility of that fund's latest snapshot (missing
values read as 0), against the fixed axis maxima 1, 5, 2, 0.5 and 0.5; no
other statistic enters the series. -/
theorem radar_projection (funds : List CompareViewFund) (opt : RadarOption)
    (h : getRadarOption funds = some opt) :
    opt.series.map (fun e => e.values) =
      funds.map (fun f =>
        [|((f.latest.bind (fun p => p.annual_return)).getD 0)|,
         |((f.latest.bind (fun p => p.annual_sharpe)).getD 0)|,
         |((f.latest.bind (fun p => p.cumulative_return)).getD 0)|,
         |((f.latest.bind (fun p => p.max_drawdown)).getD 0)|,
         |((f.latest.bind (fun p => p.annual_volatility)).getD 0)|]) ∧
      opt.indicators.map (fun i => i.axisMax) = [1, 5, 2, 1/2, 1/2] := by
  unfold getRadarOption at h
  split at h
  · exact absurd h (by simp)
  · injection h with h'
    subst h'
    refine ⟨?_, by simp [radarIndicators]⟩
    simp [radarValues, radarMetric]

/-- Witness for C5: the radar option of a concrete one-fund comparison. -/
theorem radar_projection_witness :
    getRadarOption radarFundsW = some radarOptW ∧
      (radarOptW.series.map (fun e => e.values) =
        radarFundsW.map (fun f =>
          [|((f.latest.bind (fun p => p.annual_return)).getD 0)|,
           |((f.latest.bind (fun p => p.annual_sharpe)).getD 0)|,
           |((f.latest.bind (fun p => p.cumulative_return)).getD 0)|,
           |((f.latest.bind (fun p => p.max_drawdown)).getD 0)|,
           |((f.latest.bind (fun p => p.annual_volatility)).getD 0)|]) ∧
        radarOptW.indicators.map (fun i => i.axisMax) = [1, 5, 2, 1/2, 1/2]) :=
  ⟨rfl, radar_projection radarFundsW radarOptW rfl⟩

/-! ## C1 — pagination arithmetic of the funds search -/

/-- C1: whenever the funds search accepts its parameters, the returned page
satisfies total_pages = ceil(total / page_size) and carries at most
page_size items. -/
theorem searchFunds_pagination (db : Database) (q : FundsQuery) (r : Paged FundItem)
    (h : searchFunds db q = .ok r) :
    r.total_pages = ⌈(r.total : ℚ) / (r.page_size : ℚ)⌉₊ ∧
      r.items.length ≤ r.page_size := by
  unfold searchFunds at h
  split_ifs at h with h1 h2 h3 h4
  · injection h with h'
    subst h'
    refine ⟨?_, ?_⟩
    · exact add_pred_div_eq_ceil _ _ (by omega)
    · simp [List.length_take]

/-- Witness for C1: the default query against a one-row store yields total
1, one item and one page, matching the ceiling formula. -/
theorem searchFunds_pagination_witness :
    searchFunds dbW {} = .ok pagedW ∧
      (pagedW.total_pages = ⌈(pagedW.total : ℚ) / (pagedW.page_size : ℚ)⌉₊ ∧
        pagedW.items.length ≤ pagedW.page_size) :=
  ⟨rfl, searchFunds_pagination dbW {} pagedW rfl⟩

/-! ## C2 — unknown sort fields are rejected, never defaulted -/

/-- C2: a funds search whose sort field is outside the allow-list fails
with a validation error for every store and every choice of the other
parameters; it never falls back to a default sort column. -/
theorem searchFunds_unknown_sort_rejected (db : Database) (q : FundsQuery)
    (h : q.sort_by ∉ ALLOWED_SORT_FIELDS) :
    searchFunds db q = .error (.validation unknownSortFieldMessage) := by
  unfold searchFunds
  rw [if_neg h]

/-- Witness for C2: sorting by launch_date, a field outside the allow-list,
is rejected on a concrete store. -/
theorem searchFunds_unknown_sort_rejected_witness :
    qBadSort.sort_by ∉ ALLOWED_SORT_FIELDS ∧
      searchFunds dbW qBadSort = .error (.validation unknownSortFieldMessage) :=
  ⟨by decide, searchFunds_unknown_sort_rejected dbW qBadSort (by decide)⟩

/-! ## C6 — boundary defaults and the paginated envelope -/

/-- C6: when the corresponding HTTP query parameters are absent, the
boundary layer passes exactly page 1, page_size 20, sort_by annual_return
and order desc to the query layer, and every serialized paginated list is
an object with exactly the keys items, total, page, page_size and
total_pages, in that order. -/
theorem boundary_defaults_and_envelope (raw : RawFundsParams)
    (hs : raw.sort_by = none) (ho : raw.order = none)
    (hp : raw.page = none) (hps : raw.page_size = none) :
    ((coerceFundsParams raw).page = 1 ∧
     (coerceFundsParams raw).page_size = 20 ∧
     (coerceFundsParams raw).sort_by = "annual_return" ∧
     (coerceFundsParams raw).order = "desc") ∧
      ∀ (ser : FundItem → Json) (e : Paged FundItem),
        (serializePaged ser e).objKeys =
          ["items", "total", "page", "page_size", "total_pages"] := by
  refine ⟨⟨?_, ?_, ?_, ?_⟩, ?_⟩
  · simp [coerceFundsParams, hp]
  · simp [coerceFundsParams, hps]
  · simp [coerceFundsParams, hs]
  · simp [coerceFundsParams, ho]
  · intro ser e
    rfl

/-- Witness for C6: the all-absent parameter record coerces to the four
documented defaults, and a concrete page serializes to the five-key
envelope. -/
theorem boundary_defaults_and_envelope_witness :
    ((coerceFundsParams {}).page = 1 ∧
     (coerceFundsParams {}).page_size = 20 ∧
     (coerceFundsParams {}).sort_by = "annual_return" ∧
     (coerceFundsParams {}).order = "desc") ∧
      (serializePaged serStub pagedW).objKeys =
        ["items", "total", "page", "page_size", "total_pages"] :=
  ⟨(boundary_defaults_and_envelope {} rfl rfl rfl rfl).1,
   (boundary_defaults_and_envelope {} rfl rfl rfl rfl).2 serStub pagedW⟩

/-! ## C3 — shape of the comparison operation -/

/-- C3: a comparison with 1 or 6 codes is a validation error; with 2 to 5
all-valid codes it returns exactly one entry per requested code, each
carrying a non-null latest exactly when the fund has a performance row in
range — a fund with no rows in range is returned with an empty series, not
omitted. -/
theorem analyticsCompare_spec (db : Database) (req : CompareRequest) :
    (req.fund_codes.length = 1 ∨ req.fund_codes.length = 6 →
      analyticsCompare db req = .error (.validation compareCountMessage)) ∧
    (2 ≤ req.fund_codes.length → req.fund_codes.length ≤ 5 →
      (∀ c ∈ req.fund_codes, (db.funds.find? (fun f => f.fund_code == c)).isSome) →
      ∃ resp, analyticsCompare db req = .ok resp ∧
        resp.funds.length = req.fund_codes.length ∧
        resp.funds.map (fun e => e.fund_code) = req.fund_codes ∧
        ∀ e ∈ resp.funds, (e.latest.isSome ↔ e.performances ≠ [])) := by
  constructor
  · intro hlen
    have hcond : req.fund_codes.length < 2 ∨ 5 < req.fund_codes.length := by omega
    unfold analyticsCompare
    rw [if_pos hcond]
  · intro h2 h5 hvalid
    have hcond : ¬(req.fund_codes.length < 2 ∨ 5 < req.fund_codes.length) := by omega
    have hall : req.fund_codes.all
        (fun c => (db.funds.find? (fun f => f.fund_code == c)).isSome) = true :=
      List.all_eq_true.2 (fun c hc => hvalid c hc)
    have hok : analyticsCompare db req = .ok
        { funds := req.fund_codes.map (mkCompareEntry db req)
          date_range := (List.insertionSort (fun a b : Nat => a ≤ b)
            ((db.performances.filter (fun p =>
              p.fund_code ∈ req.fund_codes && inRange req p)).map
                (fun p => p.report_date))).dedup } := by
      unfold analyticsCompare
      rw [if_neg hcond, if_pos hall]
    refine ⟨_, hok, ?_, ?_, ?_⟩
    · simp
    · simp [Function.comp_def, mkCompareEntry_code]
    · intro e he
      obtain ⟨c, _, rfl⟩ := List.mem_map.1 he
      exact mkCompareEntry_latest_iff db req c

/-- Witness for C3: on a concrete two-fund store, a one-code comparison is
rejected and a two-code comparison returns two entries in request order,
the second fund having no performance rows. -/
theorem analyticsCompare_spec_witness :
    (analyticsCompare dbC reqOne = .error (.validation compareCountMessage)) ∧
      ∃ resp, analyticsCompare dbC reqTwo = .ok resp ∧
        resp.funds.length = reqTwo.fund_codes.length ∧
        resp.funds.map (fun e => e.fund_code) = reqTwo.fund_codes ∧
        ∀ e ∈ resp.funds, (e.latest.isSome ↔ e.performances ≠ []) :=
  ⟨(analyticsCompare_spec dbC reqOne).1 (Or.inl (by decide)),
   (analyticsCompare_spec dbC reqTwo).2 (by decide) (by decide) (by decide)⟩

/-! ## C8 — descending and ascending sorts are mutual reverses -/

/-- C8: for every allow-listed metric field and every filtered dataset,
the key sequence of the descending sort is exactly the reverse of the key
sequence of the ascending sort — the two orders agree up to the placement
of tied values. -/
theorem sort_desc_reverse_of_asc (field : String) (hf : field ∈ ALLOWED_SORT_FIELDS)
    (rows : List FundItem) :
    (sortRows field "desc" rows).map (sortKey field) =
      ((sortRows field "asc" rows).map (sortKey field)).reverse := by
  have hd : List.Sorted (descRel field) (List.insertionSort (descRel field) rows) :=
    List.sorted_insertionSort _ _
  have ha : List.Sorted (ascRel field) (List.insertionSort (ascRel field) rows) :=
    List.sorted_insertionSort _ _
  have hdesc : sortRows field "desc" rows = List.insertionSort (descRel field) rows := rfl
  have hasc : sortRows field "asc" rows = List.insertionSort (ascRel field) rows := rfl
  rw [hdesc, hasc]
  haveI : IsAntisymm (WithBot ℚ) (fun x y => y ≤ x) :=
    ⟨fun a b h1 h2 => le_antisymm h2 h1⟩
  have p1 := (List.perm_insertionSort (descRel field) rows).map (sortKey field)
  have p2 := (List.perm_insertionSort (ascRel field) rows).map (sortKey field)
  have hperm :
      ((List.insertionSort (descRel field) rows).map (sortKey field)).Perm
        (((List.insertionSort (ascRel field) rows).map (sortKey field)).reverse) :=
    (p1.trans p2.symm).trans
      ((List.insertionSort (ascRel field) rows).map (sortKey field)).reverse_perm.symm
  have hs1 : ((List.insertionSort (descRel field) rows).map (sortKey field)).Pairwise
      (fun x y : WithBot ℚ => y ≤ x) :=
    List.pairwise_map.2 hd
  have hs2 : (((List.insertionSort (ascRel field) rows).map (sortKey field)).reverse).Pairwise
      (fun x y : WithBot ℚ => y ≤ x) :=
    List.pairwise_reverse.2 (List.pairwise_map.2 ha)
  exact List.eq_of_perm_of_sorted hperm hs1 hs2

/-- Witness for C8: sorting two concrete items by annual_return descending
gives the reverse key sequence of the ascending sort. -/
theorem sort_desc_reverse_of_asc_witness :
    "annual_return" ∈ ALLOWED_SORT_FIELDS ∧
      (sortRows "annual_return" "desc" rowsPair).map (sortKey "annual_return") =
        ((sortRows "annual_return" "asc" rowsPair).map (sortKey "annual_return")).reverse :=
  ⟨by decide, sort_desc_reverse_of_asc "annual_return" (by decide) rowsPair⟩

/-! ## C9 — the compare page only issues 2–5 distinct codes -/

/-- Every selection state reachable on the compare page holds at most 5
funds with pairwise-distinct codes. -/
theorem compareState_invariant {s : List Fund} (hs : CompareState s) :
    s.length ≤ 5 ∧ (s.map (fun f => f.fund_code)).Nodup := by
  induction hs with
  | init => simp
  | @add f t hs ih =>
    obtain ⟨hlen, hnd⟩ := ih
    unfold addFund
    split
    next hc =>
      rw [Bool.and_eq_true] at hc
      obtain ⟨hlt, hnone⟩ := hc
      have hlt' : t.length < 5 := of_decide_eq_true hlt
      have hnotin : f.fund_code ∉ t.map (fun g => g.fund_code) := by
        intro hmem
        obtain ⟨g, hg, hgc⟩ := List.mem_map.1 hmem
        have hno := List.find?_eq_none.1 (Option.isNone_iff_eq_none.1 hnone) g hg
        exact hno (by simp [hgc])
      refine ⟨by simp; omega, ?_⟩
      simp only [List.map_append, List.map_cons, List.map_nil]
      simp [List.nodup_append, hnd, hnotin]
    next => exact ⟨hlen, hnd⟩
  | remove c hs ih =>
    obtain ⟨hlen, hnd⟩ := ih
    unfold removeFund
    refine ⟨le_trans (List.length_filter_le _ _) hlen, ?_⟩
    exact hnd.sublist (List.Sublist.map _ (List.filter_sublist _))

/-- C9: every comparison request the compare page can issue carries between
2 and 5 fund codes with no duplicates: the query is enabled only from 2
selected funds, and addFund refuses a sixth fund or a duplicate code. -/
theorem compare_request_bounds (s : List Fund) (codes : List String)
    (hs : CompareState s) (hreq : compareRequestCodes s = some codes) :
    2 ≤ codes.length ∧ codes.length ≤ 5 ∧ codes.Nodup := by
  obtain ⟨hlen, hnd⟩ := compareState_invariant hs
  unfold compareRequestCodes at hreq
  split at hreq
  next hen =>
    injection hreq with h'
    subst h'
    have h2 : 2 ≤ s.length := by simpa [compareQueryEnabled] using hen
    exact ⟨by simpa using h2, by simpa using hlen, hnd⟩
  next => exact absurd hreq (by simp)

/-- Witness for C9: adding two distinct funds to the empty selection yields
a request with exactly their two codes. -/
theorem compare_request_bounds_witness :
    2 ≤ (["HF000001", "HF000002"] : List String).length ∧
      (["HF000001", "HF000002"] : List String).length ≤ 5 ∧
      (["HF000001", "HF000002"] : List String).Nodup :=
  compare_request_bounds selW ["HF000001", "HF000002"]
    (CompareState.add fundB (CompareState.add fundA CompareState.init)) (by decide)

/-! ## C10 — the basic columns can never be hidden -/

/-- Toggling any key preserves membership of a basic column key. -/
theorem toggleColumn_mem (s : List String) (k b : String)
    (hb : isBasicColumn b = true) (hmem : b ∈ s) : b ∈ toggleColumn s k := by
  unfold toggleColumn
  by_cases hk : isBasicColumn k = true
  · rw [if_pos hk]
    exact hmem
  · rw [if_neg hk]
    have hne : b ≠ k := by
      intro h
      rw [h] at hb
      exact hk hb
    by_cases hc : s.contains k = true
    · rw [if_pos hc]
      exact List.mem_filter.2 ⟨hmem, by simp [hne]⟩
    · rw [if_neg hc]
      exact List.mem_append_left _ hmem

/-- C10: toggleColumn leaves the set unchanged on basic columns, selectAll
yields the full column list, resetToDefault yields the default set, and the
three basic columns belong to every visible-column set reachable from the
default set through the ColumnSelector operations. -/
theorem basic_columns_always_visible :
    (∀ v k, isBasicColumn k = true → toggleColumn v k = v) ∧
    selectAll = PERFORMANCE_COLUMNS.map (fun col => col.key) ∧
    resetToDefault = getDefaultVisibleColumns ∧
    (∀ s, ColumnsState s →
      "fund_name" ∈ s ∧ "manager_name" ∈ s ∧ "strategy_name" ∈ s) := by
  refine ⟨?_, rfl, rfl, ?_⟩
  · intro v k hk
    unfold toggleColumn
    rw [if_pos hk]
  · intro s hs
    induction hs with
    | init => decide
    | toggle k hs ih =>
      obtain ⟨h1, h2, h3⟩ := ih
      exact ⟨toggleColumn_mem _ k _ (by decide) h1,
             toggleColumn_mem _ k _ (by decide) h2,
             toggleColumn_mem _ k _ (by decide) h3⟩
    | selAll hs ih => decide
    | reset hs ih => decide

/-- Witness for C10: toggling fund_name changes nothing, and the default
set contains the three basic columns. -/
theorem basic_columns_always_visible_witness :
    toggleColumn ["fund_name", "annual_return"] "fund_name" =
        ["fund_name", "annual_return"] ∧
      ("fund_name" ∈ getDefaultVisibleColumns ∧
        "manager_name" ∈ getDefaultVisibleColumns ∧
        "strategy_name" ∈ getDefaultVisibleColumns) :=
  ⟨basic_columns_always_visible.1 ["fund_name", "annual_return"] "fund_name" (by decide),
   basic_columns_always_visible.2.2.2 getDefaultVisibleColumns ColumnsState.init⟩

end HFParser
